import Mathlib

/-!
Shallow embedding of `plot.py` from asynchronics/tachyobench.

Numbers are modelled exactly as rationals (`ℚ`); a loaded table is a list of
rows, each row a list of cell values.  The body of the Python function `plot`
is embedded as a pure function from the table (plus the three optional string
arguments) to a description of every call it makes into matplotlib: the bar
calls with their x positions, heights, width and label, the tick positions and
labels, the axis/title texts, the legend location, and the final output action
(`plt.show()` or `plt.savefig(...)`).  Python exceptions (`ZeroDivisionError`
from `WIDTH/(n_channels-1)` when `n_channels == 1`, `IndexError` from
`channel_labels[i]` when `i >= 8`) are modelled with `Except`.
-/

namespace Tachyobench

/-- Python `int(q)` applied to a float: truncation toward zero. -/
def pyInt (q : ℚ) : ℤ := if 0 ≤ q then ⌊q⌋ else ⌈q⌉

/-- Constant `WIDTH = 0.5`, total width of a group of bars (plot.py line 36). -/
def WIDTH : ℚ := 0.5

/-- Constant `MULTIPLIER = 1e-6`, converting y units from msg/s to msg/µs
(plot.py line 37). -/
def MULTIPLIER : ℚ := 1e-6

/-- The fixed series labels `channel_labels` (plot.py line 40). -/
def channel_labels : List String :=
  ["async-channel::bounded", "flume::bounded", "futures::mpsc", "kanal",
   "postage::mpsc", "tachyonix", "thingbuf", "tokio::mpsc"]

/-- numpy-style transpose of a rectangular matrix: column `j` of the input
becomes row `j` of the output; the number of columns is read off the first
row, as numpy does for a rectangular 2-D array (plot.py line 42 applies this
to `data[:, 1:]`). -/
def transposeRect (m : List (List ℚ)) : List (List ℚ) :=
  (List.range (m.headD []).length).map (fun j => m.map (fun row => row.getD j 0))

/-- Offset `delta = -WIDTH/2.0 + i*WIDTH/(n_channels-1)` (plot.py line 49). -/
def barDelta (n i : ℕ) : ℚ := -WIDTH / 2 + (i : ℚ) * WIDTH / ((n : ℚ) - 1)

/-- One `ax.bar(x + delta, col*MULTIPLIER, WIDTH/n_channels, label=...)` call
(plot.py line 50): the x positions, the bar heights, the bar width and the
series label. -/
structure BarCall where
  xs : List ℚ
  heights : List ℚ
  width : ℚ
  label : String
deriving DecidableEq, Repr

/-- The Python exceptions the body of `plot` can raise. -/
inductive PlotError where
  | zeroDivision
  | indexError
deriving DecidableEq, Repr

/-- The successful value of the bar call at index `i`: positions `x + delta`,
heights `col * MULTIPLIER`, width `WIDTH/n_channels`, label
`channel_labels[i]` (guarded by `mkBar`, so `getD` only fills in-range).  -/
def mkBarOk (n : ℕ) (x : List ℚ) (i : ℕ) (col : List ℚ) : BarCall :=
  { xs := x.map (fun v => v + barDelta n i),
    heights := col.map (fun v => v * MULTIPLIER),
    width := WIDTH / (n : ℚ),
    label := channel_labels.getD i "" }

/-- One iteration of the loop body (plot.py lines 48-50).  Line 49 divides by
`n_channels - 1`, raising `ZeroDivisionError` when `n_channels = 1`; line 50
then looks up `channel_labels[i]`, raising `IndexError` when `i` is out of
range. -/
def mkBar (n : ℕ) (x : List ℚ) (i : ℕ) (col : List ℚ) : Except PlotError BarCall :=
  if n = 1 then .error .zeroDivision
  else if i < channel_labels.length then .ok (mkBarOk n x i col)
  else .error .indexError

/-- Loop `for i, col in enumerate(data): ...` (plot.py line 48): run the loop body
on each column in order with its index, stopping at the first exception. -/
def plotLoop (n : ℕ) (x : List ℚ) : ℕ → List (List ℚ) → Except PlotError (List BarCall)
  | _, [] => .ok []
  | i, col :: rest =>
      match mkBar n x i col with
      | .error e => .error e
      | .ok b =>
          match plotLoop n x (i + 1) rest with
          | .error e => .error e
          | .ok bs => .ok (b :: bs)

/-- The terminal action of `plot` (plot.py lines 61-64): either
`plt.show()` or `plt.savefig(output, format='png', dpi=150,
bbox_inches='tight')`. -/
inductive PlotAction where
  | show
  | savefig (path : String) (format : String) (dpi : ℕ) (bboxTight : Bool)
deriving DecidableEq, Repr

/-- Everything `plot` hands to matplotlib: the bar calls, the optional title
and x label, the y label, the tick positions and integer tick labels, the
legend location and the output action. -/
structure Render where
  bars : List BarCall
  title : Option String
  xlabel : Option String
  ylabel : String
  xticks : List ℚ
  xticklabels : List ℤ
  legendLoc : String
  action : PlotAction
deriving DecidableEq, Repr

/-- Embedding of `plot(data, x_label, title, output)` (plot.py lines 35-64).
The first component of the result is the contents of the caller's array after
the call: no operation in the body writes into it (`data[:,0]` and
`data[:,1:]` read, `numpy.transpose` returns a view, `col*MULTIPLIER` builds a
new array, and `data = numpy.transpose(...)` rebinds the local name only), so
it is the input unchanged.  The second component is the render description, or
the exception the body raises. -/
def plot (data : List (List ℚ)) (x_label title output : Option String) :
    List (List ℚ) × Except PlotError Render :=
  (data,
    let parameter_labels := data.map (fun row => pyInt (row.getD 0 0))
    let d := transposeRect (data.map (List.drop 1))
    let x := (List.range parameter_labels.length).map (fun k : ℕ => (k : ℚ))
    let n_channels := d.length
    match plotLoop n_channels x 0 d with
    | .error e => .error e
    | .ok bars =>
        .ok { bars := bars,
              title := title,
              xlabel := x_label,
              ylabel := "msg/µs",
              xticks := x,
              xticklabels := parameter_labels,
              legendLoc := "upper left",
              action := match output with
                | none => .show
                | some p => .savefig p "png" 150 true })

/-! ## The `__main__` block and the loader

`__main__` (plot.py lines 68-82) opens the file, parses it with
`numpy.loadtxt` and calls `plot`; any exception propagates uncaught, which
makes the process exit non-zero, while normal return exits 0.

`numpy.loadtxt` is an external library call; it is modelled from the spec's
description of the file format: rows separated by newlines (blank lines
skipped), columns separated by whitespace, every cell numeric, and an
inconsistent column count or a non-numeric cell is a parse error.  A file is
modelled already tokenised: a list of lines, each a list of tokens, a token
being `some q` when it parses as the number `q` and `none` otherwise. -/

/-- A parse failure from the loader (numpy raises `ValueError`). -/
inductive LoadError where
  | formatError
deriving DecidableEq, Repr

/-- Model of the `numpy.loadtxt(f)` call (plot.py line 81), from the spec's
file-format description: skip blank lines, fail on a non-numeric cell, fail on
an inconsistent column count, otherwise return the table. -/
def loadtxt (content : List (List (Option ℚ))) : Except LoadError (List (List ℚ)) :=
  let rows := content.filter (fun l => !l.isEmpty)
  if ∀ r ∈ rows, ∀ c ∈ r, c.isSome then
    let table := rows.map (fun r => r.map (fun c => c.getD 0))
    if ∀ r ∈ table, r.length = (table.headD []).length then .ok table
    else .error .formatError
  else .error .formatError

/-- The uncaught Python exceptions the program can die with. -/
inductive PyError where
  | fileNotFound
  | formatError
  | zeroDivisionError
  | indexError
deriving DecidableEq, Repr

/-- Embedding of the `__main__` block (plot.py lines 68-82): look the file up
in the file system `fs`, parse it with `loadtxt`, call `plot`; every exception
propagates uncaught. -/
def runMain (fs : String → Option (List (List (Option ℚ)))) (file : String)
    (xlabel title output : Option String) : Except PyError Render :=
  match fs file with
  | none => .error .fileNotFound
  | some content =>
      match loadtxt content with
      | .error .formatError => .error .formatError
      | .ok data =>
          match (plot data xlabel title output).2 with
          | .error .zeroDivision => .error .zeroDivisionError
          | .error .indexError => .error .indexError
          | .ok r => .ok r

/-- Process exit code: 0 on normal return, 1 for an uncaught exception. -/
def exitCode (r : Except PyError Render) : ℕ :=
  match r with
  | .ok _ => 0
  | .error _ => 1

/-! Concrete inputs used by the witnesses. -/

/-- The spec's example table: 2 rows, 1 parameter column + 8 series. -/
def exData : List (List ℚ) :=
  [[1, 100, 200, 300, 400, 500, 600, 700, 800],
   [2, 150, 250, 350, 450, 550, 650, 750, 850]]

/-- A 2-column table: one series only. -/
def exData2 : List (List ℚ) := [[1, 5], [2, 6]]

/-- A consistent 3-column table. -/
def exData3 : List (List ℚ) := [[1, 5, 6], [2, 7, 8]]

/-- A consistent 10-column table. -/
def exData10 : List (List ℚ) :=
  [[1, 2, 3, 4, 5, 6, 7, 8, 9, 10], [11, 12, 13, 14, 15, 16, 17, 18, 19, 20]]

/-- A tokenised file with a malformed (3-cell) row among 9-cell rows. -/
def exBadContent : List (List (Option ℚ)) :=
  [[some 1, some 100, some 200, some 300, some 400, some 500, some 600,
    some 700, some 800],
   [some 1, some 100, some 200]]

/-- The example table as a well-formed tokenised file. -/
def exGoodContent : List (List (Option ℚ)) := exData.map (fun r => r.map some)

/-- Placeholder render for the error branches of the witnesses below. -/
def defaultRender : Render := ⟨[], none, none, "", [], [], "", .show⟩

/-- The render `plot` produces on `exData` with an output path. -/
def exRenderSave : Render :=
  match (plot exData none none (some "out.png")).2 with
  | .ok r => r
  | .error _ => defaultRender

/-- The render `plot` produces on `exData` without an output path. -/
def exRenderShow : Render :=
  match (plot exData none none none).2 with
  | .ok r => r
  | .error _ => defaultRender

/-- The render the whole program produces on the well-formed example file. -/
def exMainRender : Render :=
  match runMain (fun _ => some exGoodContent) "bench.txt" none none none with
  | .ok r => r
  | .error _ => defaultRender

end Tachyobench

namespace Tachyobench

lemma channel_labels_length : channel_labels.length = 8 := rfl

lemma plotLoop_ok (n : ℕ) (x : List ℚ) (hn : n ≠ 1) :
    ∀ (l : List (List ℚ)) (i : ℕ), i + l.length ≤ channel_labels.length →
      plotLoop n x i l =
        .ok (List.zipWith (fun j c => mkBarOk n x j c) (List.range' i l.length) l) := by
  intro l
  induction l with
  | nil => intro i _; simp [plotLoop]
  | cons c rest ih =>
      intro i hle
      simp only [List.length_cons, channel_labels_length] at hle
      have hi : i < channel_labels.length := by
        rw [channel_labels_length]; omega
      have h1 : mkBar n x i c = .ok (mkBarOk n x i c) := by
        simp [mkBar, hn, hi]
      have h2 := ih (i + 1) (by rw [channel_labels_length]; omega)
      simp [plotLoop, h1, h2, List.range'_succ]

lemma plotLoop_zeroDiv (x : List ℚ) (c : List ℚ) (rest : List (List ℚ)) (i : ℕ) :
    plotLoop 1 x i (c :: rest) = .error .zeroDivision := by
  simp [plotLoop, mkBar]

lemma plotLoop_indexError (n : ℕ) (x : List ℚ) (hn : n ≠ 1) :
    ∀ (l : List (List ℚ)) (i : ℕ), i ≤ 8 → 8 < i + l.length →
      plotLoop n x i l = .error .indexError := by
  intro l
  induction l with
  | nil => intro i h1 h2; simp only [List.length_nil] at h2; omega
  | cons c rest ih =>
      intro i h1 h2
      rcases Nat.lt_or_ge i 8 with hlt | hge
      · have h1' : mkBar n x i c = .ok (mkBarOk n x i c) := by
          have : i < channel_labels.length := by rw [channel_labels_length]; omega
          simp [mkBar, hn, this]
        have h2' := ih (i + 1) (by omega)
          (by simp only [List.length_cons] at h2; omega)
        simp [plotLoop, h1', h2']
      · have hi8 : i = 8 := by omega
        subst hi8
        have : ¬ (8 : ℕ) < channel_labels.length := by rw [channel_labels_length]; omega
        simp [plotLoop, mkBar, hn, this]

lemma getD_drop_one (r : List ℚ) (j : ℕ) : (r.drop 1).getD j 0 = r.getD (j + 1) 0 := by
  cases r <;> simp [List.getD]

lemma transposeRect_of_head (hd : List ℚ) (tl : List (List ℚ)) :
    transposeRect ((hd :: tl).map (List.drop 1)) =
      (List.range (hd.length - 1)).map
        (fun j => (hd :: tl).map (fun r => (r.drop 1).getD j 0)) := by
  simp [transposeRect, List.map_map, Function.comp]

lemma plot_ok_spec (data : List (List ℚ)) (C : ℕ) (xl t o : Option String)
    (h0 : data ≠ []) (hC3 : 3 ≤ C) (hC9 : C ≤ 9) (hrect : ∀ r ∈ data, r.length = C) :
    (plot data xl t o).2 = .ok
      { bars := (List.range (C - 1)).map (fun j =>
          mkBarOk (C - 1) ((List.range data.length).map (fun k : ℕ => (k : ℚ))) j
            (data.map (fun r => (r.drop 1).getD j 0))),
        title := t, xlabel := xl, ylabel := "msg/µs",
        xticks := (List.range data.length).map (fun k : ℕ => (k : ℚ)),
        xticklabels := data.map (fun row => pyInt (row.getD 0 0)),
        legendLoc := "upper left",
        action := match o with
          | none => .show
          | some p => .savefig p "png" 150 true } := by
  obtain ⟨hd, tl, rfl⟩ := List.exists_cons_of_ne_nil h0
  have hhd : hd.length = C := hrect hd (by simp)
  have htrans := transposeRect_of_head hd tl
  rw [hhd] at htrans
  have hloop := plotLoop_ok (C - 1)
    ((List.range (hd :: tl).length).map (fun k : ℕ => (k : ℚ)))
    (by omega)
    ((List.range (C - 1)).map
      (fun j => (hd :: tl).map (fun r => (r.drop 1).getD j 0)))
    0
    (by simp [channel_labels_length]; omega)
  simp only [List.length_map, List.length_range] at hloop
  rw [← List.range_eq_range'] at hloop
  rw [List.zipWith_map_right] at hloop
  simp only [List.zipWith_same] at hloop
  simp only [plot, htrans, List.length_map, List.length_range, hloop]

lemma plot_zeroDiv_spec (data : List (List ℚ)) (xl t o : Option String)
    (h0 : data ≠ []) (hrect : ∀ r ∈ data, r.length = 2) :
    (plot data xl t o).2 = .error .zeroDivision := by
  obtain ⟨hd, tl, rfl⟩ := List.exists_cons_of_ne_nil h0
  have hhd : hd.length = 2 := hrect hd (by simp)
  have htrans := transposeRect_of_head hd tl
  rw [hhd] at htrans
  have h21 : List.range (2 - 1) = [0] := rfl
  rw [h21] at htrans
  simp only [plot]
  rw [htrans]
  simp only [List.map_cons, List.map_nil, List.length_singleton, plotLoop_zeroDiv]

lemma plot_indexError_spec (data : List (List ℚ)) (C : ℕ) (xl t o : Option String)
    (h0 : data ≠ []) (hC : 10 ≤ C) (hrect : ∀ r ∈ data, r.length = C) :
    (plot data xl t o).2 = .error .indexError := by
  obtain ⟨hd, tl, rfl⟩ := List.exists_cons_of_ne_nil h0
  have hhd : hd.length = C := hrect hd (by simp)
  have htrans := transposeRect_of_head hd tl
  rw [hhd] at htrans
  have hloop := plotLoop_indexError (C - 1)
    ((List.range (hd :: tl).length).map (fun k : ℕ => (k : ℚ)))
    (by omega)
    ((List.range (C - 1)).map
      (fun j => (hd :: tl).map (fun r => (r.drop 1).getD j 0)))
    0 (by omega) (by simp; omega)
  simp only [plot, htrans, List.length_map, List.length_range, hloop]

end Tachyobench

namespace Tachyobench

lemma range_map_getD_eq_take (m : ℕ) (hm : m ≤ channel_labels.length) :
    (List.range m).map (fun j => channel_labels.getD j "") = channel_labels.take m := by
  apply List.ext_getElem
  · simp [Nat.min_eq_left hm]
  · intro k h1 h2
    simp only [List.length_map, List.length_range] at h1
    have hk : k < channel_labels.length := lt_of_lt_of_le h1 hm
    simp [List.getD_eq_getElem?_getD, List.getElem?_eq_getElem hk, List.getElem_take]

/-- C1: for every valid input table with `R` rows and 9 columns, `plot`
succeeds and the render has exactly `R` category groups (`R` tick positions,
all distinct) and exactly 8 bar series, each spanning all `R` groups. -/
theorem claim_C1 (data : List (List ℚ)) (R : ℕ) (xl t o : Option String)
    (hR : data.length = R) (h0 : 0 < R) (hrect : ∀ r ∈ data, r.length = 9) :
    ∃ rd, (plot data xl t o).2 = .ok rd ∧
      rd.xticks.length = R ∧ rd.xticks.Nodup ∧
      rd.bars.length = 8 ∧
      ∀ b ∈ rd.bars, b.xs.length = R ∧ b.heights.length = R := by
  have h0' : data ≠ [] := by
    intro hnil
    rw [hnil] at hR
    simp at hR
    omega
  refine ⟨_, plot_ok_spec data 9 xl t o h0' (by norm_num) (by norm_num) hrect,
    by simp [hR], ?_, by simp, ?_⟩
  · exact List.Nodup.map Nat.cast_injective (List.nodup_range _)
  · intro b hb
    simp only [List.mem_map, List.mem_range] at hb
    obtain ⟨j, hj, rfl⟩ := hb
    constructor <;> simp [mkBarOk, hR]

/-- C2: with group width `W = 0.5` and `n = 8` series, the offset of series
`i` from the group center is `-0.25 + i*(0.5/7)`, the bar width is
`W/n = 0.0625`, the offsets are symmetric around 0 and strictly increasing. -/
theorem claim_C2 (i : ℕ) (h : i < 8) :
    barDelta 8 i = (-0.25 : ℚ) + (i : ℚ) * (0.5 / 7) ∧
    (∀ (x col : List ℚ), (mkBarOk 8 x i col).width = 0.0625) ∧
    barDelta 8 i = - barDelta 8 (7 - i) ∧
    ∀ j, i < j → j < 8 → barDelta 8 i < barDelta 8 j := by
  have key : ∀ k : ℕ, barDelta 8 k = -(1 / 4 : ℚ) + (k : ℚ) / 14 := by
    intro k
    simp only [barDelta, WIDTH]
    norm_num
    ring
  refine ⟨?_, ?_, ?_, ?_⟩
  · rw [key]
    norm_num
    ring
  · intro x col
    simp [mkBarOk, WIDTH]
    norm_num
  · rw [key, key, Nat.cast_sub (by omega : i ≤ 7)]
    push_cast
    ring
  · intro j h1 h2
    rw [key, key]
    have hij : (i : ℚ) < (j : ℚ) := by exact_mod_cast h1
    linarith

/-- C3: for every valid table, the heights handed to each `ax.bar` call are
the corresponding series-column cells divided by 1,000,000. -/
theorem claim_C3 (data : List (List ℚ)) (xl t o : Option String)
    (h0 : data ≠ []) (hrect : ∀ r ∈ data, r.length = 9) :
    ∃ rd, (plot data xl t o).2 = .ok rd ∧
      ∀ i (hi : i < rd.bars.length),
        rd.bars[i].heights = data.map (fun r => r.getD (i + 1) 0 / 1000000) := by
  refine ⟨_, plot_ok_spec data 9 xl t o h0 (by norm_num) (by norm_num) hrect, ?_⟩
  intro i hi
  simp only [List.length_map, List.length_range] at hi
  simp only [List.getElem_map, List.getElem_range, mkBarOk, List.map_map]
  apply List.map_congr_left
  intro r _
  simp only [Function.comp_apply, getD_drop_one, MULTIPLIER]
  norm_num [mul_one_div]

/-- C4: the x-axis tick labels are the first-column values cast to integer,
one per row, in original row order. -/
theorem claim_C4 (data : List (List ℚ)) (xl t o : Option String)
    (h0 : data ≠ []) (hrect : ∀ r ∈ data, r.length = 9) :
    ∃ rd, (plot data xl t o).2 = .ok rd ∧
      rd.xticklabels.length = data.length ∧
      ∀ k, k < data.length →
        rd.xticklabels.getD k 0 = pyInt ((data.getD k []).getD 0 0) := by
  refine ⟨_, plot_ok_spec data 9 xl t o h0 (by norm_num) (by norm_num) hrect,
    by simp, ?_⟩
  intro k hk
  simp [List.getD_eq_getElem?_getD, List.getElem?_map, List.getElem?_eq_getElem hk]

/-- C5: when an output path is given a successful `plot` saves a PNG at
150 DPI with a tight bounding box to that path; with no output path it calls
the interactive `plt.show()` and saves nothing. -/
theorem claim_C5 (data : List (List ℚ)) (xl t : Option String) (p : String)
    (rd rd' : Render) :
    ((plot data xl t (some p)).2 = .ok rd →
       rd.action = .savefig p "png" 150 true) ∧
    ((plot data xl t none).2 = .ok rd' → rd'.action = .show) := by
  constructor
  · intro h
    simp only [plot] at h
    split at h
    · exact absurd h (by simp)
    · rw [Except.ok.injEq] at h
      rw [← h]
  · intro h
    simp only [plot] at h
    split at h
    · exact absurd h (by simp)
    · rw [Except.ok.injEq] at h
      rw [← h]

end Tachyobench

namespace Tachyobench

/-- C6: an input whose (nonempty, all-numeric) rows do not all have the same
column count makes the program fail with the loader's format error; `plot` is
never reached. -/
theorem claim_C6 (fs : String → Option (List (List (Option ℚ)))) (file : String)
    (xl t o : Option String) (content : List (List (Option ℚ)))
    (hfs : fs file = some content)
    (hcells : ∀ r ∈ content, r ≠ [] ∧ ∀ c ∈ r, c.isSome)
    (hbad : ∃ r₁ ∈ content, ∃ r₂ ∈ content, r₁.length ≠ r₂.length) :
    runMain fs file xl t o = .error .formatError := by
  have hfilter : content.filter (fun l => !l.isEmpty) = content :=
    List.filter_eq_self.mpr (fun r hr => by simpa using (hcells r hr).1)
  have hload : loadtxt content = .error .formatError := by
    have hcond : ¬ ∀ r ∈ content.map (fun r => r.map (fun c => c.getD 0)),
        r.length =
          ((content.map (fun r => r.map (fun c => c.getD 0))).headD []).length := by
      intro hall
      obtain ⟨r₁, hr₁, r₂, hr₂, hne⟩ := hbad
      have e₁ := hall (r₁.map (fun c => c.getD 0)) (List.mem_map_of_mem _ hr₁)
      have e₂ := hall (r₂.map (fun c => c.getD 0)) (List.mem_map_of_mem _ hr₂)
      rw [List.length_map] at e₁ e₂
      exact hne (e₁.trans e₂.symm)
    simp only [loadtxt, hfilter]
    rw [if_pos (fun r hr => (hcells r hr).2), if_neg hcond]
  simp [runMain, hfs, hload]

/-- C7: the program exits 0 on success and non-zero when the file is missing
or the loader fails to parse it, the loader's exception propagating uncaught
through `__main__`. -/
theorem claim_C7 (fs : String → Option (List (List (Option ℚ)))) (file : String)
    (xl t o : Option String) :
    (fs file = none →
       runMain fs file xl t o = .error .fileNotFound ∧
       exitCode (runMain fs file xl t o) = 1) ∧
    (∀ content, fs file = some content → loadtxt content = .error .formatError →
       runMain fs file xl t o = .error .formatError ∧
       exitCode (runMain fs file xl t o) = 1) ∧
    (∀ r, runMain fs file xl t o = .ok r → exitCode (runMain fs file xl t o) = 0) := by
  refine ⟨?_, ?_, ?_⟩
  · intro h
    constructor
    · simp [runMain, h]
    · simp [runMain, h, exitCode]
  · intro content h hl
    constructor
    · simp [runMain, h, hl]
    · simp [runMain, h, hl, exitCode]
  · intro r h
    rw [h]
    rfl

/-- C8: `plot` never mutates the loaded table; the caller's array after the
call is the input unchanged, every cell identical. -/
theorem claim_C8 (data : List (List ℚ)) (xl t o : Option String) :
    (plot data xl t o).1 = data := rfl

/-- C9: the offset divisor is `n_channels - 1` with `n_channels` the number of
series columns actually present (`C - 1` for a `C`-column table, not the fixed
8): with 9 columns the computation is total, while a 2-column table (one
series) makes `plot` raise `ZeroDivisionError`. -/
theorem claim_C9 :
    (∀ (data : List (List ℚ)) (C : ℕ), data ≠ [] → (∀ r ∈ data, r.length = C) →
       (transposeRect (data.map (List.drop 1))).length = C - 1) ∧
    (∀ (data : List (List ℚ)) (xl t o : Option String), data ≠ [] →
       (∀ r ∈ data, r.length = 9) → ∃ rd, (plot data xl t o).2 = .ok rd) ∧
    (∀ (data : List (List ℚ)) (xl t o : Option String), data ≠ [] →
       (∀ r ∈ data, r.length = 2) →
       (plot data xl t o).2 = .error .zeroDivision) := by
  refine ⟨?_, ?_, ?_⟩
  · intro data C h0 hrect
    obtain ⟨hd, tl, rfl⟩ := List.exists_cons_of_ne_nil h0
    have hhd : hd.length = C := hrect hd (by simp)
    rw [transposeRect_of_head, hhd]
    simp
  · intro data xl t o h0 hrect
    exact ⟨_, plot_ok_spec data 9 xl t o h0 (by norm_num) (by norm_num) hrect⟩
  · intro data xl t o h0 hrect
    exact plot_zeroDiv_spec data xl t o h0 hrect

/-- C10: a consistent table of `C` columns with `3 ≤ C ≤ 9` renders `C - 1`
bars per group labeled with the first `C - 1` series names, while `C ≥ 10`
fails with `IndexError` at the ninth label lookup. -/
theorem claim_C10 :
    (∀ (data : List (List ℚ)) (C : ℕ) (xl t o : Option String),
       2 ≤ data.length → 3 ≤ C → C ≤ 9 → (∀ r ∈ data, r.length = C) →
       ∃ rd, (plot data xl t o).2 = .ok rd ∧ rd.bars.length = C - 1 ∧
         rd.bars.map BarCall.label = channel_labels.take (C - 1)) ∧
    (∀ (data : List (List ℚ)) (C : ℕ) (xl t o : Option String),
       data ≠ [] → 10 ≤ C → (∀ r ∈ data, r.length = C) →
       (plot data xl t o).2 = .error .indexError) := by
  constructor
  · intro data C xl t o h2 hC3 hC9 hrect
    have h0 : data ≠ [] := by
      intro hnil
      rw [hnil] at h2
      simp at h2
    refine ⟨_, plot_ok_spec data C xl t o h0 hC3 hC9 hrect, by simp, ?_⟩
    have h1 := range_map_getD_eq_take (C - 1) (by rw [channel_labels_length]; omega)
    rw [List.map_map]
    exact h1
  · intro data C xl t o h0 hC hrect
    exact plot_indexError_spec data C xl t o h0 hC hrect

/-- Witness for C1 on the spec's 2×9 example table. -/
theorem claim_C1_witness :
    ∃ rd, (plot exData none none none).2 = Except.ok rd ∧
      rd.xticks.length = 2 ∧ rd.xticks.Nodup ∧
      rd.bars.length = 8 ∧
      ∀ b ∈ rd.bars, b.xs.length = 2 ∧ b.heights.length = 2 :=
  claim_C1 exData 2 none none none rfl (by norm_num) (by decide)

/-- Witness for C2 at series index 3. -/
theorem claim_C2_witness :
    barDelta 8 3 = (-0.25 : ℚ) + ((3 : ℕ) : ℚ) * (0.5 / 7) ∧
    (∀ (x col : List ℚ), (mkBarOk 8 x 3 col).width = 0.0625) ∧
    barDelta 8 3 = - barDelta 8 (7 - 3) ∧
    (∀ j, 3 < j → j < 8 → barDelta 8 3 < barDelta 8 j) :=
  claim_C2 3 (by norm_num)

/-- Witness for C3 on the spec's 2×9 example table. -/
theorem claim_C3_witness :
    ∃ rd, (plot exData none none none).2 = Except.ok rd ∧
      ∀ i (hi : i < rd.bars.length),
        rd.bars[i].heights = exData.map (fun r => r.getD (i + 1) 0 / 1000000) :=
  claim_C3 exData none none none (by decide) (by decide)

/-- Witness for C4 on the spec's 2×9 example table. -/
theorem claim_C4_witness :
    ∃ rd, (plot exData none none none).2 = Except.ok rd ∧
      rd.xticklabels.length = exData.length ∧
      ∀ k, k < exData.length →
        rd.xticklabels.getD k 0 = pyInt ((exData.getD k []).getD 0 0) :=
  claim_C4 exData none none none (by decide) (by decide)

/-- Witness for C5: on the example table, an output path yields the PNG save
call and no output path yields the interactive show call. -/
theorem claim_C5_witness :
    exRenderSave.action = PlotAction.savefig "out.png" "png" 150 true ∧
    exRenderShow.action = PlotAction.show :=
  ⟨(claim_C5 exData none none "out.png" exRenderSave exRenderShow).1 rfl,
   (claim_C5 exData none none "out.png" exRenderSave exRenderShow).2 rfl⟩

/-- Witness for C6 on a file holding a 3-cell row among 9-cell rows. -/
theorem claim_C6_witness :
    runMain (fun _ => some exBadContent) "bench.txt" none none none =
      Except.error PyError.formatError :=
  claim_C6 (fun _ => some exBadContent) "bench.txt" none none none exBadContent
    rfl (by decide) (by decide)

/-- Witness for C7: missing file and malformed file exit 1, the well-formed
example file exits 0. -/
theorem claim_C7_witness :
    exitCode (runMain (fun _ => none) "bench.txt" none none none) = 1 ∧
    exitCode (runMain (fun _ => some exBadContent) "bench.txt" none none none) = 1 ∧
    exitCode (runMain (fun _ => some exGoodContent) "bench.txt" none none none) = 0 :=
  ⟨((claim_C7 (fun _ => none) "bench.txt" none none none).1 rfl).2,
   ((claim_C7 (fun _ => some exBadContent) "bench.txt" none none none).2.1
      exBadContent rfl rfl).2,
   (claim_C7 (fun _ => some exGoodContent) "bench.txt" none none none).2.2
      exMainRender rfl⟩

/-- Witness for C9: the 9-column example renders, the 2-column example raises
the division error. -/
theorem claim_C9_witness :
    (transposeRect (exData.map (List.drop 1))).length = 9 - 1 ∧
    (∃ rd, (plot exData none none (some "out2.png")).2 = Except.ok rd) ∧
    (plot exData2 none none none).2 = Except.error PlotError.zeroDivision :=
  ⟨claim_C9.1 exData 9 (by decide) (by decide),
   claim_C9.2.1 exData none none (some "out2.png") (by decide) (by decide),
   claim_C9.2.2 exData2 none none none (by decide) (by decide)⟩

/-- Witness for C10: a 3-column table renders 2 labeled bars per group, a
10-column table raises the index error. -/
theorem claim_C10_witness :
    (∃ rd, (plot exData3 none none none).2 = Except.ok rd ∧
       rd.bars.length = 3 - 1 ∧
       rd.bars.map BarCall.label = channel_labels.take (3 - 1)) ∧
    (plot exData10 none none none).2 = Except.error PlotError.indexError :=
  ⟨claim_C10.1 exData3 3 none none none (by decide) (by norm_num) (by norm_num)
     (by decide),
   claim_C10.2 exData10 10 none none none (by decide) (by norm_num) (by decide)⟩

end Tachyobench
